import Mathlib

/-!
# Shallow embedding of `faulted_earth_fault.py`

This file embeds the Faulted Earth fault-data prototype
(`src/faulted_earth_fault.py`) into Lean 4 and proves properties of the
embedded code.

The embedding models Python runtime values with the inductive type `PyVal`
(None, bool, int, str, tuple, list, geometry objects, and `Parameter`
instances) and Python exceptions with `PyErr`.  Attribute dictionaries are
association lists from string keys to values; a lookup of an absent key
raises `KeyError`.  Fallible constructors are functions into
`Except PyErr _`.

Several statements of the prototype raise exceptions unconditionally when
executed (the code was never run):

* line 26 evaluates `value(1)` — a *call* of the tuple `value`, which raises
  `TypeError: tuple object is not callable` — instead of indexing `value[1]`;
* line 102 reads the name `identifier`, but the parameter of
  `BaseObservation.__init__` is spelled `identifer` (line 87) and no other
  binding of `identifier` exists, so every observation constructor raises
  `NameError` before doing anything else;
* lines 267 and 312 declare `NeotectonicSection` and `NeotectonicFault` with
  `def`, not `class`: each is a unary function whose body merely defines a
  nested `__init__` (never invoked) and returns `None`;
* line 227 omits `self` from `BaseFault.__init__`, so instantiating
  `BaseFault(identifier, name, attributes)` passes four arguments to a
  three-parameter function (`TypeError`), and any call that does enter the
  body hits the unbound name `self` on line 230 (`NameError`);
* line 322 swaps the arguments of `isinstance`: `isinstance(dict, attributes)`
  raises `TypeError` whenever `attributes` is not a type object (in
  particular for `attributes = None` and for any dict instance).

The embedding reproduces these behaviours faithfully; where a statement makes
the rest of a body unreachable, the unreachable remainder is embedded
separately (suffix `NoTypo`) so that its logic can still be analysed.
-/

/-- Python runtime values, restricted to the types the module manipulates:
`None`, booleans, integers, strings, tuples, lists, geometry objects
(`Point` and `Line` instances of the external geometry collaborator,
identified by an opaque tag so that object identity is observable), and
`Parameter` instances (fields: value, minimum, maximum, completeness,
distribution, comment). -/
inductive PyVal where
  | none : PyVal
  | bool : Bool → PyVal
  | int : Int → PyVal
  | str : String → PyVal
  | tuple : List PyVal → PyVal
  | pylist : List PyVal → PyVal
  | point : Nat → PyVal
  | line : Nat → PyVal
  | param : PyVal → PyVal → PyVal → PyVal → PyVal → PyVal → PyVal
deriving Repr

/-- Python exceptions raised by the module: `ValueError` (raised explicitly
with a message), `TypeError`, `NameError` (carrying the unbound name),
`AssertionError` (from `assert` statements) and `KeyError` (carrying the
missing dictionary key). -/
inductive PyErr where
  | valueError : String → PyErr
  | typeError : String → PyErr
  | nameError : String → PyErr
  | assertionError : PyErr
  | keyError : String → PyErr
deriving Repr

/-- Message of the `ValueError` raised on line 24. -/
def msgShape : String := "Preferred-Min-Max must be a tuple of length 3!"

/-- Message of the `ValueError` raised on line 27 (never reached: evaluating
`value(1)` on line 26 raises `TypeError` first). -/
def msgRange : String := "Minimum value in tuple is greater than maximum!"

/-- Message of the `TypeError` raised by `value(1)` on line 26: a tuple is
not callable. -/
def msgTupleCall : String := "tuple object is not callable"

/-- Lines 13-33, `build_pref_min_max(value, nval)`, embedded statement by
statement.

* `value` a tuple of the wrong length: `ValueError` with `msgShape`
  (lines 23-24).
* `value` a tuple of length `nval` and `nval > 2`: line 26 first evaluates
  `nval > 2` (true), then `value(1)` — a call of the tuple, since the
  source writes parentheses, not brackets — which raises
  `TypeError: tuple object is not callable` before any comparison happens.
* `value` a tuple of length `nval` and `nval ≤ 2`: the `and` chain
  short-circuits on `nval > 2` and the tuple is returned unchanged.
* `value` not a tuple (lines 31-33): wrapped as
  `(value, None, …, None)` of length `1 + (nval - 1)`; `range(0, nval - 1)`
  is empty when `nval = 0`, matching truncated subtraction on `Nat`. -/
def build_pref_min_max (value : PyVal) (nval : Nat) : Except PyErr PyVal :=
  match value with
  | PyVal.tuple elems =>
      if elems.length ≠ nval then
        Except.error (PyErr.valueError msgShape)
      else if nval > 2 then
        Except.error (PyErr.typeError msgTupleCall)
      else
        Except.ok (PyVal.tuple elems)
  | v => Except.ok (PyVal.tuple (v :: List.replicate (nval - 1) PyVal.none))

/-- Lines 49-57, `Parameter.__init__`: stores the five arguments verbatim in
the corresponding fields and sets `comment` to `None`.  No validation of any
kind is performed. -/
def Parameter.init (value minimum maximum completeness distribution : PyVal) :
    PyVal :=
  PyVal.param value minimum maximum completeness distribution PyVal.none

/-- The `value` field of a `Parameter` instance (`None` on non-instances). -/
def pvalue : PyVal → PyVal
  | PyVal.param v _ _ _ _ _ => v
  | _ => PyVal.none

/-- The `minimum` field of a `Parameter` instance (`None` on non-instances). -/
def pminimum : PyVal → PyVal
  | PyVal.param _ mn _ _ _ _ => mn
  | _ => PyVal.none

/-- The `maximum` field of a `Parameter` instance (`None` on non-instances). -/
def pmaximum : PyVal → PyVal
  | PyVal.param _ _ mx _ _ _ => mx
  | _ => PyVal.none

/-- The `comment` field of a `Parameter` instance (`None` on non-instances). -/
def pcomment : PyVal → PyVal
  | PyVal.param _ _ _ _ _ c => c
  | _ => PyVal.none

/-- A `Parameter` whose `minimum` and `maximum` fields are both present
(non-`None`) integers with `minimum > maximum` — i.e. a witness that the
min/max ordering invariant is violated.  `false` on anything else. -/
def boundsPresentAndInverted : PyVal → Bool
  | PyVal.param _ (PyVal.int mn) (PyVal.int mx) _ _ _ => decide (mx < mn)
  | _ => false

/-- Lines 60-66, `_assert_assign(value)`: `assert isinstance(value, Parameter)`
then return `value` unchanged.  A non-`Parameter` raises `AssertionError`. -/
def _assert_assign (value : PyVal) : Except PyErr PyVal :=
  match value with
  | PyVal.param v mn mx c d cm =>
      Except.ok (PyVal.param v mn mx c d cm)
  | _ => Except.error PyErr.assertionError

/-- An attribute dictionary: an association list from string keys to
values, looked up left to right. -/
abbrev AttrMap : Type := List (String × PyVal)

/-- Subscript access `attributes[key]`: the value of the first matching key,
or `KeyError` naming the key when it is absent. -/
def getItem (attrs : AttrMap) (key : String) : Except PyErr PyVal :=
  match List.lookup key attrs with
  | some v => Except.ok v
  | Option.none => Except.error (PyErr.keyError key)

/-- Python truthiness of the values in `PyVal`: `None`, `False`, `0`, the
empty string and empty containers are falsy; every other value, including
geometry objects and `Parameter` instances, is truthy. -/
def truthy : PyVal → Bool
  | PyVal.none => false
  | PyVal.bool b => b
  | PyVal.int n => n != 0
  | PyVal.str s => s != ""
  | PyVal.tuple elems => elems.length != 0
  | PyVal.pylist elems => elems.length != 0
  | PyVal.point _ => true
  | PyVal.line _ => true
  | PyVal.param _ _ _ _ _ _ => true

/-- `isinstance(x, int) or isinstance(x, float)` (line 108) over `PyVal`:
true for integers and booleans (`bool` is a subclass of `int` in Python);
the embedded value universe has no float values. -/
def isNumericScale : PyVal → Bool
  | PyVal.int _ => true
  | PyVal.bool _ => true
  | _ => false

/-- `2 * scale` (line 109) for the values accepted by `isNumericScale`
(`True`/`False` act as `1`/`0`); `None` on anything else, which the guard
makes unreachable. -/
def pyDouble : PyVal → PyVal
  | PyVal.int n => PyVal.int (2 * n)
  | PyVal.bool b => PyVal.int (2 * (if b then 1 else 0))
  | _ => PyVal.none

/-- Attribute key strings used by the constructors. -/
def kScale : String := "Scale"

def kAccuracy : String := "Accuracy"

def kNotes : String := "Notes"

def kFaultSection : String := "Fault Section"

def kSiteFeature : String := "Site Feature"

def kTotalDisplacement : String := "Total Displacement"

def kCategory : String := "Category"

def kHorizontal : String := "Horizontal"

def kVertical : String := "Vertical"

def kNet : String := "Net"

def kDisplacement : String := "Displacement"

def kRecurrenceInterval : String := "Recurrence Interval"

def kRecurrenceCategory : String := "Recurrence Category"

def kMovement : String := "Movement"

def kMovementCategory : String := "Movement Category"

def kHistoricEvent : String := "Historic Event"

def kPrehistoricEvent : String := "Prehistoric Event"

def kMarkerAge : String := "Marker Age"

def kDipDirection : String := "Dip Direction"

def kDownthrownSide : String := "Downthrown Side"

def kStrike : String := "Strike"

def kDip : String := "Dip"

def kDipSlip : String := "Dip Slip"

def kStrikeSlip : String := "Strike-Slip"

def kNetSlip : String := "Net Slip"

def kHV : String := "HV Ratio"

def kRake : String := "Rake"

def kSlipCategory : String := "Slip Category"

def kSlipType : String := "Slip Type"

def kAseismic : String := "Aseismic"

def kName : String := "Name"

def kLocationMethod : String := "Location Method"

def kGeomorphic : String := "Geomorphic Expression"

/-- The unbound name read on line 102: the parameter is spelled `identifer`
(line 87) while the body reads `identifier`. -/
def nIdentifier : String := "identifier"

/-- The unbound name read on line 230: `BaseFault.__init__` omits `self`
from its parameter list (line 227). -/
def nSelf : String := "self"

/-- Fields of a constructed `BaseObservation` (lines 102-114). -/
structure BaseObservationData where
  id : PyVal
  location : PyVal
  scale : PyVal
  accuracy : PyVal
  notes : PyVal
  fault_section : PyVal
  site_feature : PyVal
deriving Repr

/-- Lines 106-111: the accuracy attribute of a `BaseObservation`.
`if attributes["Accuracy"]:` tests Python truthiness of the looked-up
value; on a falsy value the fallback is `2 * scale` when
`isinstance(scale, int) or isinstance(scale, float)`, else `None`. -/
def deriveAccuracy (accuracyAttr scale : PyVal) : PyVal :=
  if truthy accuracyAttr then accuracyAttr
  else if isNumericScale scale then pyDouble scale
  else PyVal.none

/-- Lines 87-114, `BaseObservation.__init__(self, identifer, location,
attributes)`.  Its first statement (line 102) is `self.id = identifier`;
the name `identifier` is bound nowhere (the parameter is spelled
`identifer` and the module defines no global of that name), so the
constructor raises `NameError` before the `Point` assertion on line 103 or
any dictionary access runs.  The remainder of the body is embedded as
`BaseObservation.initNoTypo` below. -/
def BaseObservation.init (identifer location : PyVal) (attributes : AttrMap) :
    Except PyErr BaseObservationData :=
  Except.error (PyErr.nameError nIdentifier)

/-- Lines 102-114 as they would execute were the name on line 102 spelled
like the parameter `identifer`: assert that `location` is a `Point`
instance (line 103), look up `Scale`, `Accuracy`, `Notes`, `Fault Section`
and `Site Feature` in that order (raising `KeyError` on an absent key), and
derive the accuracy via `deriveAccuracy`. -/
def BaseObservation.initNoTypo (identifer location : PyVal)
    (attributes : AttrMap) : Except PyErr BaseObservationData := do
  match location with
  | PyVal.point _ => pure ()
  | _ => throw PyErr.assertionError
  let scale ← getItem attributes kScale
  let accuracyAttr ← getItem attributes kAccuracy
  let notes ← getItem attributes kNotes
  let fault_section ← getItem attributes kFaultSection
  let site_feature ← getItem attributes kSiteFeature
  pure { id := identifer, location := location, scale := scale,
         accuracy := deriveAccuracy accuracyAttr scale, notes := notes,
         fault_section := fault_section, site_feature := site_feature }

/-- Fields of a constructed `ObservationDisplacement` (lines 118-132). -/
structure ObservationDisplacementData where
  base : BaseObservationData
  total_disp : PyVal
  category : PyVal
  horizontal_disp : PyVal
  vertical_disp : PyVal
  net_disp : PyVal
  displacement : PyVal
deriving Repr

/-- Lines 122-132, `ObservationDisplacement.__init__`: delegates to
`BaseObservation.__init__` (which raises `NameError`), then reads the
displacement keys; `Displacement` is routed through `_assert_assign`. -/
def ObservationDisplacement.init (identifier location : PyVal)
    (attributes : AttrMap) : Except PyErr ObservationDisplacementData := do
  let base ← BaseObservation.init identifier location attributes
  let total_disp ← getItem attributes kTotalDisplacement
  let category ← getItem attributes kCategory
  let horizontal_disp ← getItem attributes kHorizontal
  let vertical_disp ← getItem attributes kVertical
  let net_disp ← getItem attributes kNet
  let displacement ← _assert_assign (← getItem attributes kDisplacement)
  pure { base := base, total_disp := total_disp, category := category,
         horizontal_disp := horizontal_disp, vertical_disp := vertical_disp,
         net_disp := net_disp, displacement := displacement }

/-- Fields of a constructed `ObservationEvent` (lines 135-150). -/
structure ObservationEventData where
  base : BaseObservationData
  recurrence : PyVal
  recurrence_category : PyVal
  movement : PyVal
  movement_category : PyVal
  historic_event : PyVal
  prehistoric_event : PyVal
  marker_age : PyVal
deriving Repr

/-- Lines 139-150, `ObservationEvent.__init__`: delegates to
`BaseObservation.__init__` (which raises `NameError`), then reads the event
keys; `Recurrence Interval` and `Movement` are routed through
`_assert_assign`. -/
def ObservationEvent.init (identifier location : PyVal)
    (attributes : AttrMap) : Except PyErr ObservationEventData := do
  let base ← BaseObservation.init identifier location attributes
  let recurrence ← _assert_assign (← getItem attributes kRecurrenceInterval)
  let recurrence_category ← getItem attributes kRecurrenceCategory
  let movement ← _assert_assign (← getItem attributes kMovement)
  let movement_category ← getItem attributes kMovementCategory
  let historic_event ← getItem attributes kHistoricEvent
  let prehistoric_event ← getItem attributes kPrehistoricEvent
  let marker_age ← getItem attributes kMarkerAge
  pure { base := base, recurrence := recurrence,
         recurrence_category := recurrence_category, movement := movement,
         movement_category := movement_category,
         historic_event := historic_event,
         prehistoric_event := prehistoric_event, marker_age := marker_age }

/-- Fields of a constructed `ObservationGeometry` (lines 153-165). -/
structure ObservationGeometryData where
  base : BaseObservationData
  dip_dir : PyVal
  down_side : PyVal
  strike : PyVal
  dip : PyVal
deriving Repr

/-- Lines 157-165, `ObservationGeometry.__init__`: delegates to
`BaseObservation.__init__` (which raises `NameError`), then reads the four
orientation keys (none routed through `_assert_assign`). -/
def ObservationGeometry.init (identifier location : PyVal)
    (attributes : AttrMap) : Except PyErr ObservationGeometryData := do
  let base ← BaseObservation.init identifier location attributes
  let dip_dir ← getItem attributes kDipDirection
  let down_side ← getItem attributes kDownthrownSide
  let strike ← getItem attributes kStrike
  let dip ← getItem attributes kDip
  pure { base := base, dip_dir := dip_dir, down_side := down_side,
         strike := strike, dip := dip }

/-- Fields of a constructed `ObservationSlipRate` (lines 168-185). -/
structure ObservationSlipRateData where
  base : BaseObservationData
  dip_slip : PyVal
  strike_slip : PyVal
  vertical_slip : PyVal
  net_slip : PyVal
  hvRatioVal : PyVal
  rake : PyVal
  slip_category : PyVal
  slip_type : PyVal
  aseismic : PyVal
deriving Repr

/-- Lines 172-185, `ObservationSlipRate.__init__`: delegates to
`BaseObservation.__init__` (which raises `NameError`), then reads the
slip-rate keys; all but `Slip Category` are routed through
`_assert_assign`.  (The source field `hv_ratio` is named `hvRatioVal`
here.) -/
def ObservationSlipRate.init (identifier location : PyVal)
    (attributes : AttrMap) : Except PyErr ObservationSlipRateData := do
  let base ← BaseObservation.init identifier location attributes
  let dip_slip ← _assert_assign (← getItem attributes kDipSlip)
  let strike_slip ← _assert_assign (← getItem attributes kStrikeSlip)
  let vertical_slip ← _assert_assign (← getItem attributes kVertical)
  let net_slip ← _assert_assign (← getItem attributes kNetSlip)
  let hvRatioVal ← _assert_assign (← getItem attributes kHV)
  let rake ← _assert_assign (← getItem attributes kRake)
  let slip_category ← getItem attributes kSlipCategory
  let slip_type ← _assert_assign (← getItem attributes kSlipType)
  let aseismic ← _assert_assign (← getItem attributes kAseismic)
  pure { base := base, dip_slip := dip_slip, strike_slip := strike_slip,
         vertical_slip := vertical_slip, net_slip := net_slip,
         hvRatioVal := hvRatioVal, rake := rake,
         slip_category := slip_category, slip_type := slip_type,
         aseismic := aseismic }

/-- Fields of a constructed `FaultTrace` (lines 188-203). -/
structure FaultTraceData where
  id : PyVal
  geometry : PyVal
  scale : PyVal
  accuracy : PyVal
  notes : PyVal
  name : PyVal
  method : PyVal
  expression : PyVal
deriving Repr

/-- Lines 192-203, `FaultTrace.__init__`: stores the identifier, asserts
that `geometry` is a `Line` instance, and copies six attribute keys
verbatim.  In particular `self.accuracy = attributes["Accuracy"]`
(line 199): the supplied accuracy is stored unchanged and no
`2 * scale` fallback is applied. -/
def FaultTrace.init (identifier geometry : PyVal) (attributes : AttrMap) :
    Except PyErr FaultTraceData := do
  match geometry with
  | PyVal.line _ => pure ()
  | _ => throw PyErr.assertionError
  let scale ← getItem attributes kScale
  let accuracy ← getItem attributes kAccuracy
  let notes ← getItem attributes kNotes
  let name ← getItem attributes kName
  let method ← getItem attributes kLocationMethod
  let expression ← getItem attributes kGeomorphic
  pure { id := identifier, geometry := geometry, scale := scale,
         accuracy := accuracy, notes := notes, name := name,
         method := method, expression := expression }

/-- `TypeError` message for calling the one-parameter function
`NeotectonicSection` with a constructor-style argument list. -/
def msgSectionArity : String :=
  "NeotectonicSection() takes 1 positional argument but more were given"

/-- `TypeError` message for calling the one-parameter function
`NeotectonicFault` with a constructor-style argument list. -/
def msgFaultArity : String :=
  "NeotectonicFault() takes 1 positional argument but more were given"

/-- `TypeError` message for instantiating `BaseFault` with its documented
three arguments: `__init__` (line 227) has only the three parameters
`identifier, name, attributes`, so the implicit instance argument makes a
fourth. -/
def msgBaseFaultArity : String :=
  "BaseFault takes 3 positional arguments but 4 were given"

/-- `TypeError` message of `isinstance(dict, attributes)` (line 322) when
`attributes` is not a type object. -/
def msgIsinstance : String := "isinstance() arg 2 must be a type"

/-- Lines 222-264: calling `BaseFault(...)` with the given argument list.
`__init__` omits `self` (line 227), so the documented call
`BaseFault(identifier, name, attributes)` passes four arguments (the new
instance plus three) to a three-parameter function and raises `TypeError`.
A two-argument call `BaseFault(x, y)` does enter the body — the new
instance binds to `identifier` — and line 230 (`self.id = identifier`)
then raises `NameError` on the unbound name `self`. -/
def callBaseFault (args : List PyVal) : Except PyErr PyVal :=
  match args with
  | [_, _] => Except.error (PyErr.nameError nSelf)
  | _ => Except.error (PyErr.typeError msgBaseFaultArity)

/-- Lines 267-283: `NeotectonicSection` is declared with `def`, not
`class`.  It is therefore a plain function of one parameter (named
`BaseFault`) whose body only defines a nested function `__init__` (never
invoked) and falls off the end, returning `None`.  Calling it with any
other number of arguments raises `TypeError`. -/
def callNeotectonicSection (args : List PyVal) : Except PyErr PyVal :=
  match args with
  | [_] => Except.ok PyVal.none
  | _ => Except.error (PyErr.typeError msgSectionArity)

/-- Lines 312-326: `NeotectonicFault` is likewise declared with `def`, not
`class`: a plain function of one parameter (named `object`) that defines a
nested `__init__` and returns `None`.  Calling it with any other number of
arguments raises `TypeError`. -/
def callNeotectonicFault (args : List PyVal) : Except PyErr PyVal :=
  match args with
  | [_] => Except.ok PyVal.none
  | _ => Except.error (PyErr.typeError msgFaultArity)

/-- Lines 316-326: the body of the nested `__init__` inside
`NeotectonicFault` (unreachable, since `NeotectonicFault` is a function,
not a class).  Lines 319-321 assign `id`, `name` and `sections`; line 322
then evaluates `isinstance(dict, attributes)` — the arguments are swapped —
which raises `TypeError: isinstance() arg 2 must be a type`, because
`attributes` is documented to be `None` or a dictionary and neither is a
type object (no value of the embedded universe is). -/
def NeotectonicFault.initBody (identifier name sections attributes : PyVal) :
    Except PyErr PyVal :=
  Except.error (PyErr.typeError msgIsinstance)

/-- A well-formed `Parameter` instance used as fixture: value 1, bounds 0
and 2. -/
def pOne : PyVal :=
  Parameter.init (PyVal.int 1) (PyVal.int 0) (PyVal.int 2) PyVal.none
    PyVal.none

/-- Fixture: the shared observation keys, fully keyed with null-like
values (`Scale` 25000, `Accuracy` null). -/
def baseAttrs : AttrMap :=
  [(kScale, PyVal.int 25000), (kAccuracy, PyVal.none),
   (kNotes, PyVal.none), (kFaultSection, PyVal.none),
   (kSiteFeature, PyVal.none)]

/-- Fixture: a fully keyed slip-rate attribute mapping whose
required-envelope fields all hold proper `Parameter` instances. -/
def slipAttrs : AttrMap :=
  baseAttrs ++
  [(kDipSlip, pOne), (kStrikeSlip, pOne), (kVertical, pOne),
   (kNetSlip, pOne), (kHV, pOne), (kRake, pOne),
   (kSlipCategory, PyVal.none), (kSlipType, pOne), (kAseismic, pOne)]

/-- Fixture: `slipAttrs` with a plain integer in the `Rake` slot (a
required-envelope field). -/
def slipAttrsBadRake : AttrMap :=
  baseAttrs ++
  [(kDipSlip, pOne), (kStrikeSlip, pOne), (kVertical, pOne),
   (kNetSlip, pOne), (kHV, pOne), (kRake, PyVal.int 3),
   (kSlipCategory, PyVal.none), (kSlipType, pOne), (kAseismic, pOne)]

/-- Fixture: the shared observation keys with `Notes` absent. -/
def attrsNoNotes : AttrMap :=
  [(kScale, PyVal.int 25000), (kAccuracy, PyVal.none),
   (kFaultSection, PyVal.none), (kSiteFeature, PyVal.none)]

/-- Fixture: a fully keyed fault-trace attribute mapping with a numeric
`Scale` of 25000 and a null `Accuracy`. -/
def traceAttrs : AttrMap :=
  [(kScale, PyVal.int 25000), (kAccuracy, PyVal.none),
   (kNotes, PyVal.none), (kName, PyVal.none),
   (kLocationMethod, PyVal.none), (kGeomorphic, PyVal.none)]

/-- The string "unknown", used as a non-numeric map scale. -/
def sUnknown : String := "unknown"

/-- Fixture: a fault-trace attribute mapping with a non-numeric `Scale`
and an explicit `Accuracy` of 100. -/
def traceAttrsAcc : AttrMap :=
  [(kScale, PyVal.str sUnknown), (kAccuracy, PyVal.int 100),
   (kNotes, PyVal.none), (kName, PyVal.none),
   (kLocationMethod, PyVal.none), (kGeomorphic, PyVal.none)]

/-- Claim C1, failing-input evaluation (code bug): for the valid triple
`(1, 2, 3)` with expected arity 3, `build_pref_min_max` does not return the
tuple unchanged — line 26 calls the tuple (`value(1)` instead of
`value[1]`) and raises `TypeError`, not the documented pass-through or
`RangeError`. -/
theorem c1_valid_triple_raises_typeerror :
    build_pref_min_max (PyVal.tuple [PyVal.int 1, PyVal.int 2, PyVal.int 3])
      3 = Except.error (PyErr.typeError msgTupleCall) ∧
    build_pref_min_max (PyVal.tuple [PyVal.int 1, PyVal.int 5, PyVal.int 2])
      3 = Except.error (PyErr.typeError msgTupleCall) := by
  exact ⟨rfl, rfl⟩

/-- Claim C2, failing-input evaluation (code bug): constructing an
`ObservationSlipRate` raises `NameError` on the unbound name `identifier`
(line 102) whether every required-envelope field holds a proper `Parameter`
or the `Rake` slot holds a plain integer — construction never succeeds and
never reaches the `_assert_assign` type check. -/
theorem c2_sliprate_construction_raises_nameerror :
    ObservationSlipRate.init PyVal.none (PyVal.point 0) slipAttrs =
      Except.error (PyErr.nameError nIdentifier) ∧
    ObservationSlipRate.init PyVal.none (PyVal.point 0) slipAttrsBadRake =
      Except.error (PyErr.nameError nIdentifier) := by
  exact ⟨rfl, rfl⟩

/-- Claim C3 (confirmed): for every non-tuple value `v` and every arity
`n ≥ 1`, `build_pref_min_max` succeeds with the tuple
`(v, None, …, None)` of length exactly `n` whose first element is `v`. -/
theorem c3_scalar_wrapped (v : PyVal) (n : Nat)
    (hv : ∀ es, v ≠ PyVal.tuple es) (hn : 1 ≤ n) :
    build_pref_min_max v n =
      Except.ok (PyVal.tuple (v :: List.replicate (n - 1) PyVal.none)) ∧
    (v :: List.replicate (n - 1) PyVal.none).length = n := by
  constructor
  · cases v with
    | tuple es => exact absurd rfl (hv es)
    | none => rfl
    | bool b => rfl
    | int m => rfl
    | str s => rfl
    | pylist es => rfl
    | point k => rfl
    | line k => rfl
    | param a b c d e f => rfl
  · simp only [List.length_cons, List.length_replicate]
    omega

/-- Concrete instance of `c3_scalar_wrapped`: the integer 7 at arity 3. -/
theorem c3_scalar_wrapped_witness :
    build_pref_min_max (PyVal.int 7) 3 =
      Except.ok (PyVal.tuple
        (PyVal.int 7 :: List.replicate 2 PyVal.none)) ∧
    (PyVal.int 7 :: List.replicate 2 PyVal.none).length = 3 :=
  c3_scalar_wrapped (PyVal.int 7) 3 (fun es h => PyVal.noConfusion h)
    (by decide)

/-- Claim C4, counterexample: a fault trace built from a mapping with
numeric `Scale` 25000 and null `Accuracy` gets accuracy `None`, not the
claimed `2 × 25000 = 50000` — `FaultTrace.__init__` (line 199) stores the
supplied `Accuracy` verbatim with no derivation. -/
theorem c4_trace_accuracy_counterexample :
    Except.map (fun r => FaultTraceData.accuracy r)
      (FaultTrace.init PyVal.none (PyVal.line 0) traceAttrs) =
      Except.ok PyVal.none ∧
    PyVal.none ≠ pyDouble (PyVal.int 25000) := by
  exact ⟨rfl, fun h => PyVal.noConfusion h⟩

/-- Claim C4 as amended: the accuracy rule lives only in the
point-observation base constructor (lines 106-111, embedded as
`deriveAccuracy`, reachable only modulo the line-102 `NameError`), where
the supplied `Accuracy` is used when *truthy* (not merely non-null), else
`2 × Scale` when the scale is numeric, else `None`; the fault trace record
instead stores the supplied `Accuracy` verbatim. -/
theorem c4_accuracy_amended (a s : PyVal) :
    (truthy a = true → deriveAccuracy a s = a) ∧
    (truthy a = false → isNumericScale s = true →
      deriveAccuracy a s = pyDouble s) ∧
    (truthy a = false → isNumericScale s = false →
      deriveAccuracy a s = PyVal.none) ∧
    Except.map (fun r => FaultTraceData.accuracy r)
      (FaultTrace.init PyVal.none (PyVal.line 0) traceAttrsAcc) =
      Except.ok (PyVal.int 100) ∧
    Except.map (fun r => BaseObservationData.accuracy r)
      (BaseObservation.initNoTypo PyVal.none (PyVal.point 0) baseAttrs) =
      Except.ok (pyDouble (PyVal.int 25000)) := by
  refine ⟨?_, ?_, ?_, rfl, rfl⟩
  · intro h
    simp [deriveAccuracy, h]
  · intro h1 h2
    simp [deriveAccuracy, h1, h2]
  · intro h1 h2
    simp [deriveAccuracy, h1, h2]

/-- Concrete instances of `c4_accuracy_amended`: a truthy supplied
accuracy wins; a null accuracy with numeric scale falls back to twice the
scale. -/
theorem c4_accuracy_amended_witness :
    deriveAccuracy (PyVal.int 100) (PyVal.str sUnknown) = PyVal.int 100 ∧
    deriveAccuracy PyVal.none (PyVal.int 25000) =
      pyDouble (PyVal.int 25000) :=
  ⟨(c4_accuracy_amended (PyVal.int 100) (PyVal.str sUnknown)).1 rfl,
   (c4_accuracy_amended PyVal.none (PyVal.int 25000)).2.1 rfl rfl⟩

/-- Claim C5, failing-input evaluation (code bug): constructing any of the
four observation variants from a mapping lacking the required key `Notes`
raises `NameError` (the unbound `identifier` on line 102), not a
`KeyError`/`MissingFieldError` naming `Notes` — the lookup of `Notes` is
never reached. -/
theorem c5_missing_notes_raises_nameerror :
    ObservationDisplacement.init PyVal.none (PyVal.point 0) attrsNoNotes =
      Except.error (PyErr.nameError nIdentifier) ∧
    ObservationEvent.init PyVal.none (PyVal.point 0) attrsNoNotes =
      Except.error (PyErr.nameError nIdentifier) ∧
    ObservationGeometry.init PyVal.none (PyVal.point 0) attrsNoNotes =
      Except.error (PyErr.nameError nIdentifier) ∧
    ObservationSlipRate.init PyVal.none (PyVal.point 0) attrsNoNotes =
      Except.error (PyErr.nameError nIdentifier) := by
  exact ⟨rfl, rfl, rfl, rfl⟩

/-- Claim C6, failing-input evaluation (code bug): the end-to-end scenario
breaks at every step — a slip-rate observation cannot be constructed
(`NameError`, line 102), calling `NeotectonicSection` with a
constructor-style argument list raises `TypeError` because line 267
declares it with `def` (one parameter) rather than `class`, and even the
sole non-raising call returns `None` rather than a section object. -/
theorem c6_end_to_end_scenario_breaks :
    ObservationSlipRate.init PyVal.none (PyVal.point 0) slipAttrs =
      Except.error (PyErr.nameError nIdentifier) ∧
    callNeotectonicSection
      [PyVal.none, PyVal.none, PyVal.none, PyVal.line 0,
       PyVal.pylist [PyVal.none, PyVal.none, PyVal.none]] =
      Except.error (PyErr.typeError msgSectionArity) ∧
    callNeotectonicSection [PyVal.none] = Except.ok PyVal.none := by
  exact ⟨rfl, rfl, rfl⟩

/-- Claim C7, failing-input evaluation (code bug): `NeotectonicFault` is a
one-parameter `def` (line 312), so the documented call with identifier,
name and section list raises `TypeError`; its nested `__init__` body would
itself raise `TypeError` at `isinstance(dict, attributes)` (line 322,
arguments swapped) even when no attribute mapping is supplied; and
instantiating `BaseFault` raises `TypeError` because its `__init__`
(line 227) omits `self`. -/
theorem c7_fault_construction_breaks :
    callNeotectonicFault
      [PyVal.none, PyVal.none, PyVal.pylist [PyVal.none]] =
      Except.error (PyErr.typeError msgFaultArity) ∧
    NeotectonicFault.initBody PyVal.none PyVal.none
      (PyVal.pylist [PyVal.none]) PyVal.none =
      Except.error (PyErr.typeError msgIsinstance) ∧
    callBaseFault [PyVal.none, PyVal.none, PyVal.none] =
      Except.error (PyErr.typeError msgBaseFaultArity) := by
  exact ⟨rfl, rfl, rfl⟩

/-- Claim C8, counterexample: `Parameter(1, minimum=10, maximum=5)`
constructs successfully and yields a `Parameter` whose bounds are both
present with `minimum = 10 > 5 = maximum` — the ordering invariant is not
enforced by construction. -/
theorem c8_inverted_parameter_constructible :
    boundsPresentAndInverted
      (Parameter.init (PyVal.int 1) (PyVal.int 10) (PyVal.int 5) PyVal.none
        PyVal.none) = true ∧
    pminimum
      (Parameter.init (PyVal.int 1) (PyVal.int 10) (PyVal.int 5) PyVal.none
        PyVal.none) = PyVal.int 10 ∧
    pmaximum
      (Parameter.init (PyVal.int 1) (PyVal.int 10) (PyVal.int 5) PyVal.none
        PyVal.none) = PyVal.int 5 := by
  exact ⟨rfl, rfl, rfl⟩

/-- Claim C8 as amended: `Parameter` construction performs no validation at
all — it stores `value`, `minimum` and `maximum` verbatim (and sets
`comment` to `None`) for every combination of arguments, including those
with `minimum > maximum`. -/
theorem c8_parameter_stores_verbatim (v mn mx c d : PyVal) :
    pvalue (Parameter.init v mn mx c d) = v ∧
    pminimum (Parameter.init v mn mx c d) = mn ∧
    pmaximum (Parameter.init v mn mx c d) = mx ∧
    pcomment (Parameter.init v mn mx c d) = PyVal.none := by
  exact ⟨rfl, rfl, rfl, rfl⟩

/-- Claim C9 (confirmed): normalizing a tuple whose length differs from
the expected arity fails with the shape `ValueError` regardless of the
tuple's contents — the length check on line 23 precedes the (broken) range
check on line 26. -/
theorem c9_wrong_length_shape_error (elems : List PyVal) (n : Nat)
    (h : elems.length ≠ n) :
    build_pref_min_max (PyVal.tuple elems) n =
      Except.error (PyErr.valueError msgShape) := by
  have hdef : build_pref_min_max (PyVal.tuple elems) n =
      if elems.length ≠ n then Except.error (PyErr.valueError msgShape)
      else if n > 2 then Except.error (PyErr.typeError msgTupleCall)
      else Except.ok (PyVal.tuple elems) := rfl
  rw [hdef, if_pos h]

/-- Concrete instance of `c9_wrong_length_shape_error`: a one-element
tuple at arity 3. -/
theorem c9_wrong_length_shape_error_witness :
    build_pref_min_max (PyVal.tuple [PyVal.int 9]) 3 =
      Except.error (PyErr.valueError msgShape) :=
  c9_wrong_length_shape_error [PyVal.int 9] 3 (by decide)

/-- Claim C10, failing-input evaluation (code bug): `BaseObservation`
construction raises `NameError` (unbound `identifier`, line 102) both for
a proper `Point` location and for a non-`Point` location — the `Point`
assertion on line 103 is never reached and no location is ever stored. -/
theorem c10_location_check_unreachable :
    BaseObservation.init PyVal.none (PyVal.point 7) baseAttrs =
      Except.error (PyErr.nameError nIdentifier) ∧
    BaseObservation.init PyVal.none (PyVal.int 5) baseAttrs =
      Except.error (PyErr.nameError nIdentifier) := by
  exact ⟨rfl, rfl⟩
